import Mathlib

/-
  Verification of the sleepd suspend/resume IPC layer.

  The definitions below are a shallow embedding of src/pwrevents/suspend_ipc.c
  and src/main.c.  Handlers become pure functions from an inbound message and
  the daemon state to the new state, the list of replies attempted for that
  message, and the boolean returned to the dispatcher.  Functions of the
  repository that live outside the provided sources (client.c, suspend.c,
  activity.c, wait.c, json_utils.c, lunaservice_utils.c) are modelled from the
  specification and carry a doc comment saying so.
-/

namespace Sleepd

/-- JSON values as the handlers inspect them after json_tokener_parse:
strings, integers and booleans; any other shape is opaque. -/
inductive JsonVal where
  | jstring (s : String)
  | jint (n : Int)
  | jbool (b : Bool)
  | jother
deriving DecidableEq

/-- A parsed JSON object: association list from field names to values. -/
abbrev JsonObj := List (String × JsonVal)

/-- Modelled from the spec: json_utils.c is not among the sources; §6 types
each payload field.  The field is produced only when present as a string. -/
def get_json_string (obj : JsonObj) (key : String) : Option String :=
  match obj.find? (fun kv => kv.1 == key) with
  | some (_, JsonVal.jstring s) => some s
  | _ => none

/-- Modelled from the spec: integer payload field accessor of json_utils.c. -/
def get_json_int (obj : JsonObj) (key : String) : Option Int :=
  match obj.find? (fun kv => kv.1 == key) with
  | some (_, JsonVal.jint n) => some n
  | _ => none

/-- Modelled from the spec: boolean payload field accessor of json_utils.c. -/
def get_json_boolean (obj : JsonObj) (key : String) : Option Bool :=
  match obj.find? (fun kv => kv.1 == key) with
  | some (_, JsonVal.jbool b) => some b
  | _ => none

/-- Per-client record of the registry (spec §3 Client; client.c is not among
the sources).  The code keeps one NACK counter per voting phase. -/
structure PwrEventClientInfo where
  clientId : String
  clientName : Option String
  applicationName : Option String
  requireSuspendRequest : Bool
  requirePrepareSuspend : Bool
  suspendRequestNackCount : Nat
  prepareSuspendNackCount : Nat
deriving DecidableEq

def newClientInfo (cid : String) : PwrEventClientInfo :=
  ⟨cid, none, none, false, false, 0, 0⟩

/-- Modelled from the spec: Lookup(clientId) -> ClientRef | NotFound. -/
def PwrEventClientLookup (clients : List PwrEventClientInfo) (cid : String) :
    Option PwrEventClientInfo :=
  clients.find? (fun c => c.clientId == cid)

/-- Modelled from the spec: Register(clientId) is an idempotent insert. -/
def PwrEventClientRegister (clients : List PwrEventClientInfo) (cid : String) :
    List PwrEventClientInfo :=
  match PwrEventClientLookup clients cid with
  | some _ => clients
  | none => newClientInfo cid :: clients

/-- Apply f to the record keyed by cid, leaving every other record alone. -/
def updateClient (clients : List PwrEventClientInfo) (cid : String)
    (f : PwrEventClientInfo → PwrEventClientInfo) : List PwrEventClientInfo :=
  clients.map (fun c => if c.clientId == cid then f c else c)

/-- Modelled from the spec: UnregisterById(clientId). -/
def PwrEventClientUnregister (clients : List PwrEventClientInfo) (cid : String) :
    List PwrEventClientInfo :=
  clients.filter (fun c => !(c.clientId == cid))

/-- Modelled from the spec: UnregisterByName(name) removes matching records. -/
def PwrEventClientUnregisterByName (clients : List PwrEventClientInfo)
    (name : String) : List PwrEventClientInfo :=
  clients.filter (fun c => !(c.clientName == some name))

/-- Modelled from the spec: SetSubscription(clientId, phase-2, enabled) ->
ok | NotFound; ok only for a client already in the registry. -/
def PwrEventClientSuspendRequestRegister (clients : List PwrEventClientInfo)
    (cid : String) (reg : Bool) : Bool × List PwrEventClientInfo :=
  match PwrEventClientLookup clients cid with
  | some _ => (true, updateClient clients cid
      (fun c => { c with requireSuspendRequest := reg }))
  | none => (false, clients)

/-- Modelled from the spec: SetSubscription(clientId, phase-1, enabled) ->
ok | NotFound. -/
def PwrEventClientPrepareSuspendRegister (clients : List PwrEventClientInfo)
    (cid : String) (reg : Bool) : Bool × List PwrEventClientInfo :=
  match PwrEventClientLookup clients cid with
  | some _ => (true, updateClient clients cid
      (fun c => { c with requirePrepareSuspend := reg }))
  | none => (false, clients)

/-- Modelled from the spec: increment the phase-2 NACK diagnostic counter. -/
def PwrEventClientSuspendRequestNACKIncr (clients : List PwrEventClientInfo)
    (cid : String) : List PwrEventClientInfo :=
  updateClient clients cid
    (fun c => { c with suspendRequestNackCount := c.suspendRequestNackCount + 1 })

/-- Modelled from the spec: increment the phase-1 NACK diagnostic counter. -/
def PwrEventClientPrepareSuspendNACKIncr (clients : List PwrEventClientInfo)
    (cid : String) : List PwrEventClientInfo :=
  updateClient clients cid
    (fun c => { c with prepareSuspendNackCount := c.prepareSuspendNackCount + 1 })

/-- The phase-2 NACK counter of the client keyed by cid (0 when absent). -/
def suspendNackCount (clients : List PwrEventClientInfo) (cid : String) : Nat :=
  match PwrEventClientLookup clients cid with
  | some c => c.suspendRequestNackCount
  | none => 0

/-- The phase-1 NACK counter of the client keyed by cid (0 when absent). -/
def prepareNackCount (clients : List PwrEventClientInfo) (cid : String) : Nat :=
  match PwrEventClientLookup clients cid with
  | some c => c.prepareSuspendNackCount
  | none => 0

/-- One in-flight voting round (spec §3 Vote Round). -/
structure VoteRound where
  expectedVoters : List String
  responded : List String
deriving DecidableEq

/-- A round is complete the instant responded ⊇ expectedVoters. -/
def roundComplete (r : VoteRound) : Bool :=
  r.expectedVoters.all (fun v => r.responded.contains v)

/-- Modelled from the spec: RecordVote adds clientId to responded and
returns whether the round is now complete; the ack value never affects
completion (suspend.c is not among the sources). -/
def PwrEventRecordVote (r : VoteRound) (cid : String) : VoteRound × Bool :=
  let responded' := if r.responded.contains cid then r.responded
                    else cid :: r.responded
  let r' : VoteRound := ⟨r.expectedVoters, responded'⟩
  (r', roundComplete r')

/-- Modelled from the spec: the phase-2 vote entry point of suspend.c;
"returns true when all clients have acked" per the caller's comment. -/
def PwrEventVoteSuspendRequest (r : VoteRound) (cid : String) (_ack : Bool) :
    VoteRound × Bool :=
  PwrEventRecordVote r cid

/-- Modelled from the spec: the phase-1 vote entry point of suspend.c. -/
def PwrEventVotePrepareSuspend (r : VoteRound) (cid : String) (_ack : Bool) :
    VoteRound × Bool :=
  PwrEventRecordVote r cid

/-- Activities as id/duration reservations; expiry arithmetic is outside the
claims under proof. -/
abbrev ActivityList := List (String × Int)

def activityRefresh (acts : ActivityList) (id : String) (dur : Int) :
    ActivityList :=
  if acts.any (fun a => a.1 == id) then
    acts.map (fun a => if a.1 == id then (id, dur) else a)
  else (id, dur) :: acts

/-- Modelled from the spec: Start(activityId, durationMs) -> ok | Rejected;
rejected when the tracker is frozen or the duration is non-positive,
refreshing the entry when the id already exists (activity.c is not among
the sources). -/
def PwrEventActivityStart (frozen : Bool) (acts : ActivityList) (id : String)
    (dur : Int) : Bool × ActivityList :=
  if frozen then (false, acts)
  else if dur ≤ 0 then (false, acts)
  else (true, activityRefresh acts id dur)

/-- Modelled from the spec: Stop(activityId) removes the activity; no-op when
absent. -/
def PwrEventActivityStop (acts : ActivityList) (id : String) : ActivityList :=
  acts.filter (fun a => !(a.1 == id))

/-- Replies a handler can attempt, after the helpers of
lunaservice_utils.c (modelled from the spec's §7 error taxonomy) and the
two literal LSMessageReply payloads of suspend_ipc.c. -/
inductive Reply where
  | success
  | errorBadJSON
  | errorInvalidParams
  | errorUnknown
  | customError (msg : String)
  | raw (payload : String)
deriving DecidableEq

/-- The daemon state the embedded handlers read and write: the client
registry, the one round per phase, the two wait objects (latched signal per
spec §4.4; wait.c is not among the sources) and the activity tracker. -/
structure PwrEventState where
  clients : List PwrEventClientInfo
  suspendRound : VoteRound
  prepareRound : VoteRound
  waitSuspendSignaled : Bool
  waitPrepareSignaled : Bool
  activities : ActivityList
  activitiesFrozen : Bool
deriving DecidableEq

/-- An inbound Luna message: its parsed payload (none when
json_tokener_parse fails), the transport-assigned unique token, the
caller's application id, and whether LSSubscriptionAdd succeeds for it
(transport collaborator behaviour). -/
structure Message where
  payload : Option JsonObj
  uniqueToken : String
  applicationId : Option String
  subscriptionAddOk : Bool
deriving DecidableEq

/-- Result of a handler: new state, replies attempted, value returned to the
dispatcher. -/
abbrev HandlerResult := PwrEventState × List Reply × Bool

/-- Embeds clientCancelByName of suspend_ipc.c: on unparseable payload the
code jumps to out without replying; a missing clientName answers
invalid-params; otherwise it unregisters by name and answers success. -/
def clientCancelByName (msg : Message) (st : PwrEventState) : HandlerResult :=
  match msg.payload with
  | none => (st, [], true)
  | some obj =>
    match get_json_string obj "clientName" with
    | none => (st, [Reply.errorInvalidParams], true)
    | some clientName =>
      ({ st with clients := PwrEventClientUnregisterByName st.clients clientName },
       [Reply.success], true)

/-- Embeds clientCancel of suspend_ipc.c (the subscription-cancel function):
unregisters the client keyed by the message's unique token, no reply. -/
def clientCancel (msg : Message) (st : PwrEventState) : HandlerResult :=
  ({ st with clients := PwrEventClientUnregister st.clients msg.uniqueToken },
   [], true)

/-- Literal error payload suspend_ipc.c sends when PwrEventActivityStart
reports the tracker frozen. -/
def activitiesFrozenReply : String :=
  "\x7b\"returnValue\":false, \"errorText\":\"Activities Frozen\"\x7d"

/-- Embeds activityStartCallback of suspend_ipc.c: unparseable payload,
missing or ill-typed id or duration_ms, and duration_ms ≤ 0 all reach the
malformed_json label (bad-JSON reply); otherwise the start is attempted and
a frozen tracker answers the literal "Activities Frozen" error. -/
def activityStartCallback (msg : Message) (st : PwrEventState) : HandlerResult :=
  match msg.payload with
  | none => (st, [Reply.errorBadJSON], true)
  | some obj =>
    match get_json_string obj "id" with
    | none => (st, [Reply.errorBadJSON], true)
    | some activity_id =>
      match get_json_int obj "duration_ms" with
      | none => (st, [Reply.errorBadJSON], true)
      | some duration_ms =>
        if duration_ms ≤ 0 then (st, [Reply.errorBadJSON], true)
        else
          let r := PwrEventActivityStart st.activitiesFrozen st.activities
                     activity_id duration_ms
          if !r.1 then
            ({ st with activities := r.2 }, [Reply.raw activitiesFrozenReply], true)
          else
            ({ st with activities := r.2 }, [Reply.success], true)

/-- Embeds activityEndCallback of suspend_ipc.c. -/
def activityEndCallback (msg : Message) (st : PwrEventState) : HandlerResult :=
  match msg.payload with
  | none => (st, [Reply.errorBadJSON], true)
  | some obj =>
    match get_json_string obj "id" with
    | none => (st, [Reply.errorBadJSON], true)
    | some activity_id =>
      ({ st with activities := PwrEventActivityStop st.activities activity_id },
       [Reply.success], true)

/-- Literal success payload identifyCallback builds for a registered client. -/
def identifyReplyPayload (cid : String) : String :=
  "\x7b\"subscribed\":true,\"clientId\":\"" ++ cid ++ "\",\"returnValue\":true\x7d"

/-- Embeds identifyCallback of suspend_ipc.c: bad JSON, then clientName and
subscribe extraction (invalid-params on failure or subscribe=false), then
LSSubscriptionAdd (unknown-error reply on transport failure), then the
idempotent register+lookup, field assignment and the literal success reply.
The modelled Register cannot fail and Lookup after Register always finds the
record, so the C error paths behind them are unreachable here. -/
def identifyCallback (msg : Message) (st : PwrEventState) : HandlerResult :=
  match msg.payload with
  | none => (st, [Reply.errorBadJSON], true)
  | some obj =>
    let clientId := msg.uniqueToken
    match get_json_string obj "clientName" with
    | none => (st, [Reply.errorInvalidParams], true)
    | some clientName =>
      match get_json_boolean obj "subscribe" with
      | none => (st, [Reply.errorInvalidParams], true)
      | some subscribe =>
        if !subscribe then (st, [Reply.errorInvalidParams], true)
        else if !msg.subscriptionAddOk then (st, [Reply.errorUnknown], true)
        else
          let clients1 := PwrEventClientRegister st.clients clientId
          match PwrEventClientLookup clients1 clientId with
          | none => ({ st with clients := clients1 }, [Reply.errorUnknown], true)
          | some _ =>
            let clients2 := updateClient clients1 clientId (fun c =>
              { c with clientName := some clientName
                       clientId := clientId
                       applicationName := msg.applicationId })
            ({ st with clients := clients2 },
             [Reply.raw (identifyReplyPayload clientId)], true)

/-- Embeds forceSuspendCallback of suspend_ipc.c; TriggerSuspend only
schedules the suspend state machine, which lies outside the embedded state. -/
def forceSuspendCallback (_msg : Message) (st : PwrEventState) : HandlerResult :=
  (st, [Reply.success], true)

/-- Embeds TESTSuspendCallback of suspend_ipc.c; ScheduleIdleCheck only
schedules the idle check, outside the embedded state. -/
def TESTSuspendCallback (_msg : Message) (st : PwrEventState) : HandlerResult :=
  (st, [Reply.success], true)

/-- Embeds suspendRequestRegister of suspend_ipc.c: the result of the
subscription toggle is discarded and the reply is success whenever the
payload is well formed. -/
def suspendRequestRegister (msg : Message) (st : PwrEventState) : HandlerResult :=
  match msg.payload with
  | none => (st, [Reply.errorBadJSON], true)
  | some obj =>
    match get_json_string obj "clientId" with
    | none => (st, [Reply.errorInvalidParams], true)
    | some clientId =>
      match get_json_boolean obj "register" with
      | none => (st, [Reply.errorInvalidParams], true)
      | some reg =>
        let r := PwrEventClientSuspendRequestRegister st.clients clientId reg
        ({ st with clients := r.2 }, [Reply.success], true)

/-- Embeds prepareSuspendRegister of suspend_ipc.c: unlike the phase-2
handler it checks the toggle's result and answers invalid-params when the
toggle fails. -/
def prepareSuspendRegister (msg : Message) (st : PwrEventState) : HandlerResult :=
  match msg.payload with
  | none => (st, [Reply.errorBadJSON], true)
  | some obj =>
    match get_json_string obj "clientId" with
    | none => (st, [Reply.errorInvalidParams], true)
    | some clientId =>
      match get_json_boolean obj "register" with
      | none => (st, [Reply.errorInvalidParams], true)
      | some reg =>
        let r := PwrEventClientPrepareSuspendRegister st.clients clientId reg
        if !r.1 then (st, [Reply.errorInvalidParams], true)
        else ({ st with clients := r.2 }, [Reply.success], true)

/-- Embeds suspendRequestAck of suspend_ipc.c: unknown clients answer the
literal "Client not found" custom error; a known client's NACK bumps its
phase-2 counter, the vote is recorded either way, and the phase-2 wait
object is signaled exactly when the vote reports the round complete. -/
def suspendRequestAck (msg : Message) (st : PwrEventState) : HandlerResult :=
  match msg.payload with
  | none => (st, [Reply.errorBadJSON], true)
  | some obj =>
    match get_json_string obj "clientId" with
    | none => (st, [Reply.errorInvalidParams], true)
    | some clientId =>
      match get_json_boolean obj "ack" with
      | none => (st, [Reply.errorInvalidParams], true)
      | some ack =>
        match PwrEventClientLookup st.clients clientId with
        | none => (st, [Reply.customError "Client not found"], true)
        | some _ =>
          let clients' := if !ack then
              PwrEventClientSuspendRequestNACKIncr st.clients clientId
            else st.clients
          let vr := PwrEventVoteSuspendRequest st.suspendRound clientId ack
          let signaled := if vr.2 then true else st.waitSuspendSignaled
          ({ st with clients := clients'
                     suspendRound := vr.1
                     waitSuspendSignaled := signaled },
           [Reply.success], true)

/-- Embeds prepareSuspendAck of suspend_ipc.c, the phase-1 twin of
suspendRequestAck. -/
def prepareSuspendAck (msg : Message) (st : PwrEventState) : HandlerResult :=
  match msg.payload with
  | none => (st, [Reply.errorBadJSON], true)
  | some obj =>
    match get_json_string obj "clientId" with
    | none => (st, [Reply.errorInvalidParams], true)
    | some clientId =>
      match get_json_boolean obj "ack" with
      | none => (st, [Reply.errorInvalidParams], true)
      | some ack =>
        match PwrEventClientLookup st.clients clientId with
        | none => (st, [Reply.customError "Client not found"], true)
        | some _ =>
          let clients' := if !ack then
              PwrEventClientPrepareSuspendNACKIncr st.clients clientId
            else st.clients
          let vr := PwrEventVotePrepareSuspend st.prepareRound clientId ack
          let signaled := if vr.2 then true else st.waitPrepareSignaled
          ({ st with clients := clients'
                     prepareRound := vr.1
                     waitPrepareSignaled := signaled },
           [Reply.success], true)

/-- The two service handles the daemon registers (main.c). -/
inductive BusHandle where
  | palmSleep
  | webosPower
deriving DecidableEq

/-- One LSSignalSend attempt: which handle, which signal URI, which payload. -/
structure SignalAttempt where
  bus : BusHandle
  uri : String
  payload : String
deriving DecidableEq

/-- Payload SendResume builds once and sends on both buses. -/
def resumePayload (resumetype : Int) : String :=
  "\x7b\"resumetype\":" ++ toString resumetype ++ "\x7d"

/-- Embeds SendSuspendRequest of suspend_ipc.c: the com.palm.sleep send comes
first; when it fails the code jumps to exit and the com.webos.service.power
send is skipped.  palmOk and webosOk are the transport's outcomes. -/
def SendSuspendRequest (palmOk webosOk : Bool) : List SignalAttempt × Bool :=
  let a1 : SignalAttempt :=
    ⟨BusHandle.palmSleep,
     "luna://com.palm.sleep/com/palm/power/suspendRequest", "\x7b\x7d"⟩
  if !palmOk then ([a1], false)
  else
    let a2 : SignalAttempt :=
      ⟨BusHandle.webosPower,
       "luna://com.webos.service.power/suspend/suspendRequest", "\x7b\x7d"⟩
    ([a1, a2], webosOk)

/-- Embeds SendPrepareSuspend of suspend_ipc.c. -/
def SendPrepareSuspend (palmOk webosOk : Bool) : List SignalAttempt × Bool :=
  let a1 : SignalAttempt :=
    ⟨BusHandle.palmSleep,
     "luna://com.palm.sleep/com/palm/power/prepareSuspend", "\x7b\x7d"⟩
  if !palmOk then ([a1], false)
  else
    let a2 : SignalAttempt :=
      ⟨BusHandle.webosPower,
       "luna://com.webos.service.power/suspend/prepareSuspend", "\x7b\x7d"⟩
    ([a1, a2], webosOk)

/-- Embeds SendResume of suspend_ipc.c: the resumetype code is formatted into
the payload sent on both buses. -/
def SendResume (palmOk webosOk : Bool) (resumetype : Int) :
    List SignalAttempt × Bool :=
  let pl := resumePayload resumetype
  let a1 : SignalAttempt :=
    ⟨BusHandle.palmSleep, "luna://com.palm.sleep/com/palm/power/resume", pl⟩
  if !palmOk then ([a1], false)
  else
    let a2 : SignalAttempt :=
      ⟨BusHandle.webosPower, "luna://com.webos.service.power/suspend/resume", pl⟩
    ([a1, a2], webosOk)

/-- Embeds SendSuspended of suspend_ipc.c. -/
def SendSuspended (palmOk webosOk : Bool) : List SignalAttempt × Bool :=
  let a1 : SignalAttempt :=
    ⟨BusHandle.palmSleep,
     "luna://com.palm.sleep/com/palm/power/suspended", "\x7b\x7d"⟩
  if !palmOk then ([a1], false)
  else
    let a2 : SignalAttempt :=
      ⟨BusHandle.webosPower,
       "luna://com.webos.service.power/suspend/suspended", "\x7b\x7d"⟩
    ([a1, a2], webosOk)

/-- Outcomes of the external collaborators main() consults, in program
order (main.c). -/
structure MainEnv where
  webosRegisterOk : Bool
  webosAttachOk : Bool
  palmRegisterOk : Bool
  palmAttachOk : Bool
  serverStatusRegisterOk : Bool
  nyxOpenOk : Bool
deriving DecidableEq

/-- How an execution of main() ends. -/
inductive MainOutcome where
  | exitWithoutLoop
  | abortedProcess
  | ranLoopThenExit
deriving DecidableEq

/-- Embeds the control flow of main() in main.c.  A failed LSRegister for
either service name jumps to the error label (unref and return) before
g_main_loop_run; a failed LSRegisterServerStatusEx does the same; a failed
nyx_device_open calls abort().  A failed LSGmainAttach sets retVal false but,
in the source, does not branch — execution falls through, so the attach
outcomes do not influence the result. -/
def mainRun (env : MainEnv) : MainOutcome :=
  if !env.webosRegisterOk then MainOutcome.exitWithoutLoop
  else if !env.palmRegisterOk then MainOutcome.exitWithoutLoop
  else if !env.serverStatusRegisterOk then MainOutcome.exitWithoutLoop
  else if !env.nyxOpenOk then MainOutcome.abortedProcess
  else MainOutcome.ranLoopThenExit

/-- A daemon state with an empty registry, empty rounds, no activities. -/
def emptyState : PwrEventState :=
  ⟨[], ⟨[], []⟩, ⟨[], []⟩, false, false, [], false⟩

/-- A lookup that succeeds returns a record keyed by the looked-up id. -/
theorem clientId_of_lookup {cs : List PwrEventClientInfo} {cid : String}
    {c : PwrEventClientInfo} (h : PwrEventClientLookup cs cid = some c) :
    c.clientId = cid := by
  have := List.find?_some h
  simpa using this

/-- Updating the record keyed by cid with a key-preserving f is observed by a
subsequent lookup of cid. -/
theorem lookup_updateClient {cs : List PwrEventClientInfo} {cid : String}
    {c : PwrEventClientInfo} (f : PwrEventClientInfo → PwrEventClientInfo)
    (hf : ∀ x, x.clientId = cid → (f x).clientId = cid)
    (h : PwrEventClientLookup cs cid = some c) :
    PwrEventClientLookup (updateClient cs cid f) cid = some (f c) := by
  have hcid : c.clientId = cid := clientId_of_lookup h
  unfold PwrEventClientLookup updateClient
  rw [List.find?_map]
  have hpred : ((fun y : PwrEventClientInfo => y.clientId == cid) ∘
      (fun y : PwrEventClientInfo => if y.clientId == cid then f y else y))
      = (fun y : PwrEventClientInfo => y.clientId == cid) := by
    funext x
    by_cases hx : x.clientId = cid
    · simp [hx, hf x hx]
    · simp [hx]
  rw [hpred]
  unfold PwrEventClientLookup at h
  rw [h]
  simp [hcid]

/-- Lookup after the idempotent Register always finds a record. -/
theorem lookup_register_self (cs : List PwrEventClientInfo) (cid : String) :
    ∃ c, PwrEventClientLookup (PwrEventClientRegister cs cid) cid = some c := by
  unfold PwrEventClientRegister
  cases h : PwrEventClientLookup cs cid with
  | some c => exact ⟨c, h⟩
  | none =>
    refine ⟨newClientInfo cid, ?_⟩
    unfold PwrEventClientLookup
    apply List.find?_cons_of_pos
    simp [newClientInfo]

/-- The phase-2 NACK increment adds one to the counter of a present client. -/
theorem suspendNackCount_incr {cs : List PwrEventClientInfo} {cid : String}
    {c : PwrEventClientInfo} (h : PwrEventClientLookup cs cid = some c) :
    suspendNackCount (PwrEventClientSuspendRequestNACKIncr cs cid) cid
      = suspendNackCount cs cid + 1 := by
  unfold suspendNackCount PwrEventClientSuspendRequestNACKIncr
  rw [lookup_updateClient
    (fun c => { c with suspendRequestNackCount := c.suspendRequestNackCount + 1 })
    (fun x hx => hx) h, h]

/-- The phase-1 NACK increment adds one to the counter of a present client. -/
theorem prepareNackCount_incr {cs : List PwrEventClientInfo} {cid : String}
    {c : PwrEventClientInfo} (h : PwrEventClientLookup cs cid = some c) :
    prepareNackCount (PwrEventClientPrepareSuspendNACKIncr cs cid) cid
      = prepareNackCount cs cid + 1 := by
  unfold prepareNackCount PwrEventClientPrepareSuspendNACKIncr
  rw [lookup_updateClient
    (fun c => { c with prepareSuspendNackCount := c.prepareSuspendNackCount + 1 })
    (fun x hx => hx) h, h]

/-- A registered client used by the concrete witnesses. -/
def clientA : PwrEventClientInfo :=
  { newClientInfo "cA" with clientName := some "app-a" }

/-- A state whose registry holds clientA, expected as the sole voter of both
rounds, with nothing yet responded or signaled. -/
def stateWithA : PwrEventState :=
  { emptyState with
      clients := [clientA]
      suspendRound := ⟨["cA"], []⟩
      prepareRound := ⟨["cA"], []⟩ }

/-- An ack payload naming clientA with ack=false (a NACK). -/
def mNackA : Message :=
  ⟨some [("clientId", JsonVal.jstring "cA"), ("ack", JsonVal.jbool false)],
   "tokA", none, true⟩

/-- An ack payload naming a client absent from every registry. -/
def mAckGhost : Message :=
  ⟨some [("clientId", JsonVal.jstring "ghost"), ("ack", JsonVal.jbool true)],
   "tokG", none, true⟩

/-- A message whose payload json_tokener_parse rejects. -/
def unparseableMsg : Message := ⟨none, "tokU", none, true⟩

/-- C3: an ack (either phase) for a clientId not in the registry answers the
"Client not found" custom error and leaves the whole state — registry, NACK
counters, rounds, wait objects — untouched. -/
theorem C3_unknown_client_ack (msg : Message) (st : PwrEventState)
    (obj : JsonObj) (cid : String) (ack : Bool)
    (hp : msg.payload = some obj)
    (hc : get_json_string obj "clientId" = some cid)
    (ha : get_json_boolean obj "ack" = some ack)
    (hl : PwrEventClientLookup st.clients cid = none) :
    suspendRequestAck msg st = (st, [Reply.customError "Client not found"], true)
    ∧ prepareSuspendAck msg st = (st, [Reply.customError "Client not found"], true) := by
  constructor <;> simp [suspendRequestAck, prepareSuspendAck, hp, hc, ha, hl]

/-- C3 witness: the unknown-client ack evaluated on a concrete registry. -/
theorem C3_witness :
    suspendRequestAck mAckGhost stateWithA
      = (stateWithA, [Reply.customError "Client not found"], true)
    ∧ prepareSuspendAck mAckGhost stateWithA
      = (stateWithA, [Reply.customError "Client not found"], true) :=
  C3_unknown_client_ack mAckGhost stateWithA
    [("clientId", JsonVal.jstring "ghost"), ("ack", JsonVal.jbool true)]
    "ghost" true rfl rfl rfl rfl

/-- C8: when LSRegister fails for either service name, main jumps to its
error label: the main loop is never entered and the process just exits. -/
theorem C8_registration_failure_fatal (env : MainEnv)
    (h : env.webosRegisterOk = false ∨ env.palmRegisterOk = false) :
    mainRun env = MainOutcome.exitWithoutLoop
    ∧ mainRun env ≠ MainOutcome.ranLoopThenExit := by
  have h1 : mainRun env = MainOutcome.exitWithoutLoop := by
    rcases h with h | h
    · simp [mainRun, h]
    · cases hw : env.webosRegisterOk <;> simp [mainRun, h, hw]
  refine ⟨h1, ?_⟩
  rw [h1]
  simp

/-- Environment where only the com.palm.sleep registration fails. -/
def envPalmFail : MainEnv := ⟨true, true, false, true, true, true⟩

/-- C8 witness: a failed com.palm.sleep registration at concrete inputs. -/
theorem C8_witness :
    mainRun envPalmFail = MainOutcome.exitWithoutLoop
    ∧ mainRun envPalmFail ≠ MainOutcome.ranLoopThenExit :=
  C8_registration_failure_fatal envPalmFail (Or.inr rfl)

/-- C9: every handler in com_palm_suspend_methods returns true to the
dispatcher for every message and every state. -/
theorem C9_handlers_return_true (msg : Message) (st : PwrEventState) :
    (suspendRequestRegister msg st).2.2 = true
    ∧ (prepareSuspendRegister msg st).2.2 = true
    ∧ (suspendRequestAck msg st).2.2 = true
    ∧ (prepareSuspendAck msg st).2.2 = true
    ∧ (forceSuspendCallback msg st).2.2 = true
    ∧ (identifyCallback msg st).2.2 = true
    ∧ (clientCancelByName msg st).2.2 = true
    ∧ (activityStartCallback msg st).2.2 = true
    ∧ (activityEndCallback msg st).2.2 = true
    ∧ (TESTSuspendCallback msg st).2.2 = true := by
  refine ⟨?_, ?_, ?_, ?_, rfl, ?_, ?_, ?_, ?_, rfl⟩
  · unfold suspendRequestRegister
    repeat' split <;> try rfl
  · unfold prepareSuspendRegister
    repeat' split <;> try rfl
    dsimp only
    split <;> rfl
  · unfold suspendRequestAck
    repeat' split <;> try rfl
  · unfold prepareSuspendAck
    repeat' split <;> try rfl
  · unfold identifyCallback
    repeat' split <;> try rfl
    dsimp only
    split <;> rfl
  · unfold clientCancelByName
    repeat' split <;> try rfl
  · unfold activityStartCallback
    repeat' split <;> try rfl
    dsimp only
    split <;> rfl
  · unfold activityEndCallback
    repeat' split <;> try rfl

/-- C10: each of the four outbound broadcasts attempts the com.palm.sleep
send first and the com.webos.service.power send second, skipping the second
exactly when the first fails, and the resume payload carries the resumetype
code on both buses. -/
theorem C10_broadcast_both_buses (palmOk webosOk : Bool) (rt : Int) :
    (SendPrepareSuspend palmOk webosOk).1
      = (if palmOk then
          [⟨BusHandle.palmSleep,
            "luna://com.palm.sleep/com/palm/power/prepareSuspend", "\x7b\x7d"⟩,
           ⟨BusHandle.webosPower,
            "luna://com.webos.service.power/suspend/prepareSuspend", "\x7b\x7d"⟩]
         else
          [⟨BusHandle.palmSleep,
            "luna://com.palm.sleep/com/palm/power/prepareSuspend", "\x7b\x7d"⟩])
    ∧ (SendSuspendRequest palmOk webosOk).1
      = (if palmOk then
          [⟨BusHandle.palmSleep,
            "luna://com.palm.sleep/com/palm/power/suspendRequest", "\x7b\x7d"⟩,
           ⟨BusHandle.webosPower,
            "luna://com.webos.service.power/suspend/suspendRequest", "\x7b\x7d"⟩]
         else
          [⟨BusHandle.palmSleep,
            "luna://com.palm.sleep/com/palm/power/suspendRequest", "\x7b\x7d"⟩])
    ∧ (SendSuspended palmOk webosOk).1
      = (if palmOk then
          [⟨BusHandle.palmSleep,
            "luna://com.palm.sleep/com/palm/power/suspended", "\x7b\x7d"⟩,
           ⟨BusHandle.webosPower,
            "luna://com.webos.service.power/suspend/suspended", "\x7b\x7d"⟩]
         else
          [⟨BusHandle.palmSleep,
            "luna://com.palm.sleep/com/palm/power/suspended", "\x7b\x7d"⟩])
    ∧ (SendResume palmOk webosOk rt).1
      = (if palmOk then
          [⟨BusHandle.palmSleep,
            "luna://com.palm.sleep/com/palm/power/resume", resumePayload rt⟩,
           ⟨BusHandle.webosPower,
            "luna://com.webos.service.power/suspend/resume", resumePayload rt⟩]
         else
          [⟨BusHandle.palmSleep,
            "luna://com.palm.sleep/com/palm/power/resume", resumePayload rt⟩]) := by
  cases palmOk <;> exact ⟨rfl, rfl, rfl, rfl⟩

/-- C1: an ack message (either phase) from a registered client records the
vote whatever the ack value is, bumps that client's NACK counter exactly when
ack is false, and signals the round's wait object exactly when every expected
voter has now responded — completion never depends on the ack value. -/
theorem C1_ack_vote_recorded (msg : Message) (st : PwrEventState) (obj : JsonObj)
    (cid : String) (ack : Bool) (info : PwrEventClientInfo)
    (hp : msg.payload = some obj)
    (hc : get_json_string obj "clientId" = some cid)
    (ha : get_json_boolean obj "ack" = some ack)
    (hl : PwrEventClientLookup st.clients cid = some info) :
    ((suspendRequestAck msg st).2.1 = [Reply.success]
     ∧ (suspendRequestAck msg st).1.suspendRound
         = (PwrEventRecordVote st.suspendRound cid).1
     ∧ (suspendRequestAck msg st).1.suspendRound.responded.contains cid = true
     ∧ suspendNackCount (suspendRequestAck msg st).1.clients cid
         = suspendNackCount st.clients cid + (if ack then 0 else 1)
     ∧ (suspendRequestAck msg st).1.waitSuspendSignaled
         = (st.waitSuspendSignaled
             || roundComplete (suspendRequestAck msg st).1.suspendRound))
    ∧ ((prepareSuspendAck msg st).2.1 = [Reply.success]
     ∧ (prepareSuspendAck msg st).1.prepareRound
         = (PwrEventRecordVote st.prepareRound cid).1
     ∧ (prepareSuspendAck msg st).1.prepareRound.responded.contains cid = true
     ∧ prepareNackCount (prepareSuspendAck msg st).1.clients cid
         = prepareNackCount st.clients cid + (if ack then 0 else 1)
     ∧ (prepareSuspendAck msg st).1.waitPrepareSignaled
         = (st.waitPrepareSignaled
             || roundComplete (prepareSuspendAck msg st).1.prepareRound)) := by
  have hev1 : suspendRequestAck msg st
      = ({ st with
            clients := if (!ack) = true then
                PwrEventClientSuspendRequestNACKIncr st.clients cid
              else st.clients
            suspendRound := (PwrEventRecordVote st.suspendRound cid).1
            waitSuspendSignaled :=
              if (PwrEventRecordVote st.suspendRound cid).2 = true then true
              else st.waitSuspendSignaled },
         [Reply.success], true) := by
    simp only [suspendRequestAck, hp, hc, ha, hl, PwrEventVoteSuspendRequest]
  have hev2 : prepareSuspendAck msg st
      = ({ st with
            clients := if (!ack) = true then
                PwrEventClientPrepareSuspendNACKIncr st.clients cid
              else st.clients
            prepareRound := (PwrEventRecordVote st.prepareRound cid).1
            waitPrepareSignaled :=
              if (PwrEventRecordVote st.prepareRound cid).2 = true then true
              else st.waitPrepareSignaled },
         [Reply.success], true) := by
    simp only [prepareSuspendAck, hp, hc, ha, hl, PwrEventVotePrepareSuspend]
  have hmem : ∀ r : VoteRound,
      ((PwrEventRecordVote r cid).1).responded.contains cid = true := by
    intro r
    unfold PwrEventRecordVote
    by_cases hm : cid ∈ r.responded
    · simp [hm]
    · simp [hm]
  have hsig : ∀ (r : VoteRound) (w : Bool),
      (if (PwrEventRecordVote r cid).2 = true then true else w)
        = (w || roundComplete (PwrEventRecordVote r cid).1) := by
    intro r w
    have h2 : (PwrEventRecordVote r cid).2
        = roundComplete (PwrEventRecordVote r cid).1 := rfl
    rw [h2]
    cases roundComplete (PwrEventRecordVote r cid).1 <;> cases w <;> simp
  refine ⟨⟨?_, ?_, ?_, ?_, ?_⟩, ⟨?_, ?_, ?_, ?_, ?_⟩⟩
  · rw [hev1]
  · rw [hev1]
  · rw [hev1]; exact hmem st.suspendRound
  · rw [hev1]
    cases ack <;> simp [suspendNackCount_incr hl]
  · rw [hev1]; exact hsig st.suspendRound st.waitSuspendSignaled
  · rw [hev2]
  · rw [hev2]
  · rw [hev2]; exact hmem st.prepareRound
  · rw [hev2]
    cases ack <;> simp [prepareNackCount_incr hl]
  · rw [hev2]; exact hsig st.prepareRound st.waitPrepareSignaled

/-- C1 witness: clientA NACKs both phases in a round expecting only clientA;
the vote is recorded, the counter bumped, and the waiter signaled. -/
theorem C1_witness :
    ((suspendRequestAck mNackA stateWithA).2.1 = [Reply.success]
     ∧ (suspendRequestAck mNackA stateWithA).1.suspendRound
         = (PwrEventRecordVote stateWithA.suspendRound "cA").1
     ∧ (suspendRequestAck mNackA stateWithA).1.suspendRound.responded.contains
         "cA" = true
     ∧ suspendNackCount (suspendRequestAck mNackA stateWithA).1.clients "cA"
         = suspendNackCount stateWithA.clients "cA" + (if false then 0 else 1)
     ∧ (suspendRequestAck mNackA stateWithA).1.waitSuspendSignaled
         = (stateWithA.waitSuspendSignaled
             || roundComplete (suspendRequestAck mNackA stateWithA).1.suspendRound))
    ∧ ((prepareSuspendAck mNackA stateWithA).2.1 = [Reply.success]
     ∧ (prepareSuspendAck mNackA stateWithA).1.prepareRound
         = (PwrEventRecordVote stateWithA.prepareRound "cA").1
     ∧ (prepareSuspendAck mNackA stateWithA).1.prepareRound.responded.contains
         "cA" = true
     ∧ prepareNackCount (prepareSuspendAck mNackA stateWithA).1.clients "cA"
         = prepareNackCount stateWithA.clients "cA" + (if false then 0 else 1)
     ∧ (prepareSuspendAck mNackA stateWithA).1.waitPrepareSignaled
         = (stateWithA.waitPrepareSignaled
             || roundComplete (prepareSuspendAck mNackA stateWithA).1.prepareRound)) :=
  C1_ack_vote_recorded mNackA stateWithA
    [("clientId", JsonVal.jstring "cA"), ("ack", JsonVal.jbool false)]
    "cA" false clientA rfl rfl rfl rfl

/-- C2 counterexample: clientCancelByName with an unparseable payload jumps
to its out label and sends no reply at all — neither the bad-JSON reply nor
any other. -/
theorem C2_counterexample :
    (clientCancelByName unparseableMsg emptyState).2.1 = []
    ∧ ([] : List Reply) ≠ [Reply.errorBadJSON]
    ∧ ([] : List Reply) ≠ [Reply.errorInvalidParams] := by
  refine ⟨rfl, ?_, ?_⟩ <;> simp

/-- C2 amended: every registered handler replies exactly once to every
request except clientCancelByName, which sends no reply at all when the
payload is unparseable (still mutating nothing); all other payload-parsing
handlers answer unparseable JSON with the bad-JSON error and mutate
nothing. -/
theorem C2_one_reply_except_cancelByName (msg : Message) (st : PwrEventState) :
    ((suspendRequestRegister msg st).2.1.length = 1
     ∧ (prepareSuspendRegister msg st).2.1.length = 1
     ∧ (suspendRequestAck msg st).2.1.length = 1
     ∧ (prepareSuspendAck msg st).2.1.length = 1
     ∧ (forceSuspendCallback msg st).2.1.length = 1
     ∧ (identifyCallback msg st).2.1.length = 1
     ∧ (activityStartCallback msg st).2.1.length = 1
     ∧ (activityEndCallback msg st).2.1.length = 1
     ∧ (TESTSuspendCallback msg st).2.1.length = 1)
    ∧ (clientCancelByName msg st).2.1.length
        = (if msg.payload = none then 0 else 1)
    ∧ (msg.payload = none →
        (suspendRequestRegister msg st = (st, [Reply.errorBadJSON], true)
         ∧ prepareSuspendRegister msg st = (st, [Reply.errorBadJSON], true)
         ∧ suspendRequestAck msg st = (st, [Reply.errorBadJSON], true)
         ∧ prepareSuspendAck msg st = (st, [Reply.errorBadJSON], true)
         ∧ identifyCallback msg st = (st, [Reply.errorBadJSON], true)
         ∧ activityStartCallback msg st = (st, [Reply.errorBadJSON], true)
         ∧ activityEndCallback msg st = (st, [Reply.errorBadJSON], true)
         ∧ clientCancelByName msg st = (st, [], true))) := by
  refine ⟨⟨?_, ?_, ?_, ?_, rfl, ?_, ?_, ?_, rfl⟩, ?_, ?_⟩
  · unfold suspendRequestRegister
    repeat' split <;> try rfl
  · unfold prepareSuspendRegister
    repeat' split <;> try rfl
    dsimp only
    split <;> rfl
  · unfold suspendRequestAck
    repeat' split <;> try rfl
  · unfold prepareSuspendAck
    repeat' split <;> try rfl
  · unfold identifyCallback
    repeat' split <;> try rfl
    dsimp only
    split <;> rfl
  · unfold activityStartCallback
    repeat' split <;> try rfl
    dsimp only
    split <;> rfl
  · unfold activityEndCallback
    repeat' split <;> try rfl
  · cases hm : msg.payload with
    | none => simp [clientCancelByName, hm]
    | some obj =>
      cases hg : get_json_string obj "clientName" <;>
        simp [clientCancelByName, hm, hg]
  · intro h
    simp [suspendRequestRegister, prepareSuspendRegister, suspendRequestAck,
      prepareSuspendAck, identifyCallback, activityStartCallback,
      activityEndCallback, clientCancelByName, h]

/-- C2 witness: the unparseable payload at a concrete state, via the amended
theorem. -/
theorem C2_witness :
    clientCancelByName unparseableMsg emptyState = (emptyState, [], true) := by
  have h := C2_one_reply_except_cancelByName unparseableMsg emptyState
  exact (h.2.2 rfl).2.2.2.2.2.2.2

/-- Activity-start payload with duration_ms = 0. -/
def m4 : Message :=
  ⟨some [("id", JsonVal.jstring "x"), ("duration_ms", JsonVal.jint 0)],
   "tok4", none, true⟩

/-- C4 counterexample: duration_ms = 0 with a parseable payload is answered
by the generic bad-JSON error, not the invalid-parameters error the claim
names. -/
theorem C4_counterexample :
    (activityStartCallback m4 emptyState).2.1 = [Reply.errorBadJSON]
    ∧ [Reply.errorBadJSON] ≠ ([Reply.errorInvalidParams] : List Reply) := by
  refine ⟨rfl, ?_⟩
  simp

/-- C4 amended: an activityStart whose payload parses but whose duration_ms
is absent, ill-typed or non-positive reaches the malformed_json label: the
reply is the generic bad-JSON error and the state — activities included — is
untouched. -/
theorem C4_bad_duration_badjson (msg : Message) (st : PwrEventState)
    (obj : JsonObj)
    (hp : msg.payload = some obj)
    (hdur : get_json_int obj "duration_ms" = none
            ∨ ∃ n, get_json_int obj "duration_ms" = some n ∧ n ≤ 0) :
    activityStartCallback msg st = (st, [Reply.errorBadJSON], true) := by
  cases hid : get_json_string obj "id" with
  | none => simp [activityStartCallback, hp, hid]
  | some aid =>
    rcases hdur with hd | ⟨n, hd, hn⟩
    · simp [activityStartCallback, hp, hid, hd]
    · simp [activityStartCallback, hp, hid, hd, hn]

/-- C4 witness: the amended claim at duration_ms = 0. -/
theorem C4_witness :
    activityStartCallback m4 emptyState = (emptyState, [Reply.errorBadJSON], true) :=
  C4_bad_duration_badjson m4 emptyState
    [("id", JsonVal.jstring "x"), ("duration_ms", JsonVal.jint 0)] rfl
    (Or.inr ⟨0, rfl, le_refl 0⟩)

/-- Well-formed register payload naming a client absent from every registry. -/
def m5 : Message :=
  ⟨some [("clientId", JsonVal.jstring "ghost"), ("register", JsonVal.jbool true)],
   "tok5", none, true⟩

/-- C5 counterexample: a well-formed register request for an unknown client
is answered with plain success by suspendRequestRegister (the toggle result
is discarded) and with the invalid-parameters error — not a not-found error —
by prepareSuspendRegister. -/
theorem C5_counterexample :
    (suspendRequestRegister m5 emptyState).2.1 = [Reply.success]
    ∧ Reply.success ≠ Reply.customError "Client not found"
    ∧ (prepareSuspendRegister m5 emptyState).2.1 = [Reply.errorInvalidParams]
    ∧ Reply.errorInvalidParams ≠ Reply.customError "Client not found" := by
  refine ⟨rfl, ?_, rfl, ?_⟩ <;> simp

/-- C5 amended: for a well-formed payload whose clientId is unknown the
subscription toggle does fail (SetSubscription is ok only for known
clients), but suspendRequestRegister ignores that result and replies
success, while prepareSuspendRegister checks it and replies the
invalid-parameters error; neither mutates any state. -/
theorem C5_register_unknown_client (msg : Message) (st : PwrEventState)
    (obj : JsonObj) (cid : String) (reg : Bool)
    (hp : msg.payload = some obj)
    (hc : get_json_string obj "clientId" = some cid)
    (hr : get_json_boolean obj "register" = some reg)
    (hl : PwrEventClientLookup st.clients cid = none) :
    suspendRequestRegister msg st = (st, [Reply.success], true)
    ∧ prepareSuspendRegister msg st = (st, [Reply.errorInvalidParams], true) := by
  constructor
  · simp [suspendRequestRegister, PwrEventClientSuspendRequestRegister,
      hp, hc, hr, hl]
  · simp [prepareSuspendRegister, PwrEventClientPrepareSuspendRegister,
      hp, hc, hr, hl]

/-- C5 witness: the unknown client "ghost" against the empty registry. -/
theorem C5_witness :
    suspendRequestRegister m5 emptyState = (emptyState, [Reply.success], true)
    ∧ prepareSuspendRegister m5 emptyState
        = (emptyState, [Reply.errorInvalidParams], true) :=
  C5_register_unknown_client m5 emptyState
    [("clientId", JsonVal.jstring "ghost"), ("register", JsonVal.jbool true)]
    "ghost" true rfl rfl rfl rfl

/-- C6: identify with a well-formed payload: subscribe=false is rejected
with the invalid-parameters error and registers nothing; subscribe=true
(with the transport's LSSubscriptionAdd succeeding) creates the record under
the transport-assigned token, stores clientName and applicationName, and the
success reply is the literal payload carrying that clientId and
subscribed=true. -/
theorem C6_identify (msg : Message) (st : PwrEventState) (obj : JsonObj)
    (clientName : String) (b : Bool)
    (hp : msg.payload = some obj)
    (hn : get_json_string obj "clientName" = some clientName)
    (hs : get_json_boolean obj "subscribe" = some b)
    (hadd : msg.subscriptionAddOk = true) :
    (b = false →
      identifyCallback msg st = (st, [Reply.errorInvalidParams], true))
    ∧ (b = true →
        ((identifyCallback msg st).2.1
            = [Reply.raw (identifyReplyPayload msg.uniqueToken)]
         ∧ ∃ c, PwrEventClientLookup (identifyCallback msg st).1.clients
                  msg.uniqueToken = some c
              ∧ c.clientId = msg.uniqueToken
              ∧ c.clientName = some clientName
              ∧ c.applicationName = msg.applicationId)) := by
  constructor
  · intro hb; subst hb
    simp [identifyCallback, hp, hn, hs]
  · intro hb; subst hb
    obtain ⟨c0, hc0⟩ := lookup_register_self st.clients msg.uniqueToken
    have hev : identifyCallback msg st
        = ({ st with
              clients := updateClient
                           (PwrEventClientRegister st.clients msg.uniqueToken)
                           msg.uniqueToken
                           (fun c =>
                             { c with
                                clientName := some clientName
                                clientId := msg.uniqueToken
                                applicationName := msg.applicationId }) },
           [Reply.raw (identifyReplyPayload msg.uniqueToken)], true) := by
      simp [identifyCallback, hp, hn, hs, hadd, hc0]
    rw [hev]
    refine ⟨rfl,
      (fun c : PwrEventClientInfo =>
        { c with
           clientName := some clientName
           clientId := msg.uniqueToken
           applicationName := msg.applicationId }) c0,
      ?_, rfl, rfl, rfl⟩
    exact lookup_updateClient _ (fun x _ => rfl) hc0

/-- A well-formed identify request subscribing under the token tok6. -/
def m6 : Message :=
  ⟨some [("clientName", JsonVal.jstring "bob"), ("subscribe", JsonVal.jbool true)],
   "tok6", some "com.example.app", true⟩

/-- C6 witness: the identify request m6 against the empty registry. -/
theorem C6_witness :
    (true = false →
      identifyCallback m6 emptyState
        = (emptyState, [Reply.errorInvalidParams], true))
    ∧ (true = true →
        ((identifyCallback m6 emptyState).2.1
            = [Reply.raw (identifyReplyPayload m6.uniqueToken)]
         ∧ ∃ c, PwrEventClientLookup (identifyCallback m6 emptyState).1.clients
                  m6.uniqueToken = some c
              ∧ c.clientId = m6.uniqueToken
              ∧ c.clientName = some "bob"
              ∧ c.applicationName = m6.applicationId)) :=
  C6_identify m6 emptyState
    [("clientName", JsonVal.jstring "bob"), ("subscribe", JsonVal.jbool true)]
    "bob" true rfl rfl rfl rfl

/-- The empty state with the activity tracker frozen. -/
def frozenState : PwrEventState := { emptyState with activitiesFrozen := true }

/-- A valid activityStart payload: id "dl", duration_ms 500. -/
def m7 : Message :=
  ⟨some [("id", JsonVal.jstring "dl"), ("duration_ms", JsonVal.jint 500)],
   "tok7", none, true⟩

/-- C7: a valid activityStart while the tracker is frozen is rejected with
the literal "Activities Frozen" error reply — not success — and no activity
is created or refreshed (the state is untouched). -/
theorem C7_frozen_reject (msg : Message) (st : PwrEventState) (obj : JsonObj)
    (aid : String) (d : Int)
    (hp : msg.payload = some obj)
    (hid : get_json_string obj "id" = some aid)
    (hdur : get_json_int obj "duration_ms" = some d)
    (hd : 0 < d)
    (hf : st.activitiesFrozen = true) :
    activityStartCallback msg st = (st, [Reply.raw activitiesFrozenReply], true)
    ∧ Reply.raw activitiesFrozenReply ≠ Reply.success := by
  have hnle : ¬ d ≤ 0 := by omega
  constructor
  · obtain ⟨cl, sr, pr, ws, wp, ac, fz⟩ := st
    dsimp only at hf
    subst hf
    simp [activityStartCallback, hp, hid, hdur, hnle, PwrEventActivityStart]
  · simp

/-- C7 witness: activityStart "dl" for 500 ms against the frozen tracker. -/
theorem C7_witness :
    activityStartCallback m7 frozenState
      = (frozenState, [Reply.raw activitiesFrozenReply], true)
    ∧ Reply.raw activitiesFrozenReply ≠ Reply.success :=
  C7_frozen_reject m7 frozenState
    [("id", JsonVal.jstring "dl"), ("duration_ms", JsonVal.jint 500)]
    "dl" 500 rfl rfl rfl (by omega) rfl

end Sleepd
